import Mathlib

/-!
# MarketScan backend: a shallow embedding of `backend/main.py`

This file embeds the query and prediction logic of the MarketScan backend
(`get_prices_from_dataset`, `build_gemini_prompt`, `parse_gemini_response`,
`get_commodities`, `get_prices`, `get_featured`, `predict_price`) as
executable Lean definitions, and proves the behavioural properties stated in
the specification against them.

Modelling choices:
* JSON numbers (Python floats holding dataset prices) are modelled as `ℚ`.
* Python `str` values are Lean `String`s; the string methods the code uses
  (`split`, `strip`, `startswith`, `replace`, `lower`) are implemented as
  structural recursions over the underlying character lists so that all
  definitions evaluate by `decide` / `rfl`.
* Python dicts are association lists in insertion order; `dict.get` is
  `List.lookup`.
* `fastapi.HTTPException` and the one reachable uncaught Python exception
  (`IndexError` from `prices[-1]` on an empty list) are the error cases of
  an `Except` result.
* The external Gemini call (`model.generate_content(prompt).text`) is a
  capability `String → Except String String`; the handler also reports the
  list of prompts it actually sent, so "no external call" is expressible.
-/

namespace MarketScan

/-! ## Python string primitives (character-level, structurally recursive) -/

/-- Does the second list start with the first one?  (`str.startswith` core.) -/
def isPre : List Char → List Char → Bool
  | [], _ => true
  | _ :: _, [] => false
  | p :: ps, c :: cs => c == p && isPre ps cs

/-- Python `str.startswith(pre)`. -/
def pyStartswith (s pre : String) : Bool :=
  isPre pre.data s.data

/-- The whitespace characters stripped by Python `str.strip()` (ASCII range). -/
def pyIsSpace (c : Char) : Bool :=
  c == ' ' || c == '\t' || c == '\n' || c == '\r' || c == '\x0B' || c == '\x0C'

/-- Python `str.strip()`: remove leading and trailing whitespace. -/
def pyStrip (s : String) : String :=
  String.mk (((s.data.dropWhile pyIsSpace).reverse.dropWhile pyIsSpace).reverse)

/-- Worker for `pySplit`: scan left to right; `skip` counts separator
characters still to be consumed after a match.  All recursive calls are on
the tail of the scanned list, so the definition is structural. -/
def splitGo (sep : List Char) : Nat → List Char → List Char → List (List Char)
  | _ + 1, acc, [] => [acc.reverse]
  | skip + 1, acc, _ :: cs => splitGo sep skip acc cs
  | 0, acc, [] => [acc.reverse]
  | 0, acc, c :: cs =>
    if isPre sep (c :: cs) then acc.reverse :: splitGo sep (sep.length - 1) [] cs
    else splitGo sep 0 (c :: acc) cs

/-- Python `s.split(sep)` for a non-empty separator: split on every
non-overlapping occurrence, scanning left to right. -/
def pySplit (s sep : String) : List String :=
  (splitGo sep.data 0 [] s.data).map String.mk

/-- Worker for `pyReplace`, same `skip` scheme as `splitGo`. -/
def replGo (pat rep : List Char) : Nat → List Char → List Char
  | _ + 1, [] => []
  | skip + 1, _ :: cs => replGo pat rep skip cs
  | 0, [] => []
  | 0, c :: cs =>
    if isPre pat (c :: cs) then rep ++ replGo pat rep (pat.length - 1) cs
    else c :: replGo pat rep 0 cs

/-- Python `s.replace(pat, rep)` for a non-empty pattern: replace every
non-overlapping occurrence, scanning left to right. -/
def pyReplace (s pat rep : String) : String :=
  String.mk (replGo pat.data rep.data 0 s.data)

/-- Python `str.lower()` (ASCII case folding). -/
def pyLower (s : String) : String :=
  String.mk (s.data.map Char.toLower)

/-- Python `a or b` for strings: the empty string is falsy. -/
def pyOrStr (s d : String) : String :=
  if s = "" then d else s

/-- Python `a or b` for an optional list: `None` and `[]` are falsy. -/
def pyOrList {α : Type} (o : Option (List α)) (d : List α) : List α :=
  match o with
  | some (x :: xs) => x :: xs
  | _ => d

/-- Python `l[:n]` slicing: a negative bound counts from the end. -/
def pySliceTo {α : Type} (l : List α) (n : Int) : List α :=
  if 0 ≤ n then l.take n.toNat else l.take (l.length - (-n).toNat)

/-! ## Data model -/

/-- A free-form JSON metadata object, modelled as a string-keyed association
list (the only key the code inspects is `"city"`). -/
abbrev MetaObj := List (String × String)

/-- The dataset document loaded at startup (`DATASET` in `main.py`). -/
structure Dataset where
  markets : List String
  markets_meta : List (String × MetaObj)
  data : List (String × List (String × List ℚ))
  items_meta : List (String × MetaObj)
  dates : List String
  meta : MetaObj
deriving Repr

/-- A fault a handler can end with: a `fastapi.HTTPException`, or the one
reachable uncaught Python exception (`IndexError` from `prices[-1]`). -/
inductive PyErr where
  | http (status_code : Nat) (detail : String)
  | indexError
deriving DecidableEq, Repr

/-- Python `str(e)` for the faults above (used in `"Error: " + str(e)`). -/
def PyErr.message : PyErr → String
  | http code detail => toString code ++ ": " ++ detail
  | indexError => "list index out of range"

structure PricePredictionRequest where
  prices : Option (List ℚ)
  market : String
  commodity : String
  dates : Option (List String)
deriving DecidableEq, Repr

structure PricePredictionResponse where
  prediction : String
  confidence : String
  tip : String
  raw_response : String
deriving DecidableEq, Repr

/-- The external model capability: `model.generate_content(prompt).text`,
which may fail with a described fault. -/
abbrev GeminiModel := String → Except String String

/-! ## Helpers to get data from the dataset -/

def get_available_markets (ds : Dataset) : List String :=
  ds.markets

def get_dates (ds : Dataset) : List String :=
  ds.dates

/-- `get_prices_from_dataset` (main.py lines 64-72).  Python `not market_data`
is true both when the market key is missing and when its dict is empty, so
both cases answer 404 "Market not found". -/
def get_prices_from_dataset (ds : Dataset) (market commodity : String) :
    Except PyErr (List ℚ) :=
  match ds.data.lookup market with
  | none => Except.error (PyErr.http 404 "Market not found")
  | some [] => Except.error (PyErr.http 404 "Market not found")
  | some market_data =>
    match market_data.lookup commodity with
    | none => Except.error (PyErr.http 404 "Commodity not found")
    | some prices => Except.ok prices

/-! ## Prompt builder (`build_gemini_prompt`, main.py lines 75-101) -/

/-- The trend glyph from the prompt template:
`'↗' if prices[-1] > prices[0] else '↘' if prices[-1] < prices[0] else '→'`. -/
def trendGlyph (first last : ℚ) : String :=
  if last > first then "↗" else if last < first then "↘" else "→"

/-- The part of the prompt f-string before the trend glyph. -/
def promptHead (ds : Dataset) (market commodity : String) (prices : List ℚ)
    (dates : List String) (latest : ℚ) : String :=
  "You are MarketScan AI, an expert market analyst for Ethiopian agricultural markets.\n\nCONTEXT:\n- Market: "
    ++ market ++ "\n- Commodity: " ++ commodity ++ "\n- Price data: "
    ++ toString prices ++ " (for dates " ++ toString dates ++ ")\n- Latest price: "
    ++ toString latest ++ " " ++ ((ds.meta.lookup "currency").getD "ETB")
    ++ "\n- Price trend: "

/-- The part of the prompt f-string after the trend glyph. -/
def promptTail : String :=
  "\n\nTASK:\nAnalyze this price data and provide:\n1. A 1-sentence prediction for tomorrow's price (will it go up, down, or stay stable?)\n2. A confidence score (40-95%) based on the data patterns\n3. A short actionable tip (max 10 words) for buyers/sellers\n\nFORMAT YOUR RESPONSE EXACTLY AS:\nPrediction: [your prediction sentence]\nConfidence: [XX%]\nTip: [your tip]\n\nEXAMPLES:\n- If prices are rising: \"Prediction: Price likely to increase by 2-3 ETB tomorrow. / Confidence: 75% / Tip: Buy today before prices rise further.\"\n- If prices are stable: \"Prediction: Price expected to remain stable around current level. / Confidence: 65% / Tip: Good time to buy, no rush needed.\"\n- If prices are falling: \"Prediction: Price may continue declining by 1-2 ETB. / Confidence: 70% / Tip: Wait 1-2 days for better prices.\"\n\nBe realistic and consider Ethiopian market patterns, seasonal factors, and price volatility."

/-- `build_gemini_prompt`: rendering the f-string evaluates `prices[-1]` and
`prices[0]`, which raise `IndexError` on an empty price list. -/
def build_gemini_prompt (ds : Dataset) (prices : List ℚ) (market commodity : String)
    (dates : List String) : Except PyErr String :=
  match prices with
  | [] => Except.error PyErr.indexError
  | p :: ps =>
    let latest := (p :: ps).getLast (List.cons_ne_nil p ps)
    Except.ok (promptHead ds market commodity (p :: ps) dates latest
      ++ trendGlyph p latest ++ promptTail)

/-! ## Response parser (`parse_gemini_response`, main.py lines 104-130) -/

structure ParsedResponse where
  prediction : String
  confidence : String
  tip : String
  raw_response : String
deriving DecidableEq, Repr

/-- The loop body of `parse_gemini_response`: strip the segment, dispatch on
the first matching label, and overwrite that field's accumulator with the
segment after `str.replace`-ing every occurrence of the label and stripping. -/
def parseFields (acc : String × String × String) (part : String) :
    String × String × String :=
  let part := pyStrip part
  if pyStartswith part "Prediction:" then
    (pyStrip (pyReplace part "Prediction:" ""), acc.2.1, acc.2.2)
  else if pyStartswith part "Confidence:" then
    (acc.1, pyStrip (pyReplace part "Confidence:" ""), acc.2.2)
  else if pyStartswith part "Tip:" then
    (acc.1, acc.2.1, pyStrip (pyReplace part "Tip:" ""))
  else acc

/-- `parse_gemini_response`: split on `" / "`, fold the loop body over the
segments, and substitute the fixed fallbacks for fields left empty
(Python `x or default`). -/
def parse_gemini_response (response_text : String) : ParsedResponse :=
  let parts := pySplit response_text " / "
  let fields := parts.foldl parseFields ("", "", "")
  { prediction := pyOrStr fields.1 "Price movement uncertain"
    confidence := pyOrStr fields.2.1 "60%"
    tip := pyOrStr fields.2.2 "Monitor market conditions"
    raw_response := response_text }

/-! ## Query endpoints -/

structure CommoditiesResult where
  commodities : List String
  items_meta : List (String × MetaObj)
deriving DecidableEq, Repr

/-- `GET /commodities/{market}` (main.py lines 150-155).  Note this uses
`market not in DATASET["data"]`, a genuine membership test. -/
def get_commodities (ds : Dataset) (market : String) :
    Except PyErr CommoditiesResult :=
  match ds.data.lookup market with
  | none => Except.error (PyErr.http 404 "Market not found")
  | some market_data =>
    Except.ok { commodities := market_data.map Prod.fst, items_meta := ds.items_meta }

structure PriceSeriesResult where
  market : String
  commodity : String
  prices : List ℚ
  dates : List String
  latest_price : ℚ
  change_percent : ℚ
  meta : MetaObj
  market_meta : MetaObj
  item_meta : MetaObj
deriving DecidableEq, Repr

/-- `GET /prices/{market}/{commodity}` (main.py lines 157-171).  On an empty
stored series `prices[-1]` raises `IndexError` (unhandled, a 500 in FastAPI). -/
def get_prices (ds : Dataset) (market commodity : String) :
    Except PyErr PriceSeriesResult :=
  match get_prices_from_dataset ds market commodity with
  | Except.error e => Except.error e
  | Except.ok [] => Except.error PyErr.indexError
  | Except.ok (p :: ps) =>
    Except.ok
      { market := market
        commodity := commodity
        prices := p :: ps
        dates := get_dates ds
        latest_price := (p :: ps).getLast (List.cons_ne_nil p ps)
        change_percent :=
          if p ≠ 0 then ((p :: ps).getLast (List.cons_ne_nil p ps) - p) / p * 100 else 0
        meta := ds.meta
        market_meta := (ds.markets_meta.lookup market).getD []
        item_meta := (ds.items_meta.lookup commodity).getD [] }

/-! ## Featured endpoint (`get_featured`, main.py lines 173-195) -/

structure FeaturedItem where
  market : String
  commodity : String
  latest_price : Option ℚ
  change_percent : ℚ
  market_meta : MetaObj
  item_meta : MetaObj
deriving DecidableEq, Repr

/-- `markets_meta.get(m, {}).get("city", "")`. -/
def marketCity (ds : Dataset) (m : String) : String :=
  (((ds.markets_meta.lookup m).getD []).lookup "city").getD ""

/-- The `continue` guard: `if city and markets_meta...lower() != city.lower()`.
A `None` or empty `city` query parameter is falsy, so nothing is skipped. -/
def featuredSkip (ds : Dataset) (city : Option String) (m : String) : Bool :=
  match city with
  | none => false
  | some c => c ≠ "" && pyLower (marketCity ds m) ≠ pyLower c

/-- The candidate list built by the nested loops, in iteration order:
each market of `DATASET["markets"]`, then each commodity of its data dict. -/
def featuredCandidates (ds : Dataset) (city : Option String) : List FeaturedItem :=
  ds.markets.flatMap fun m =>
    if featuredSkip ds city m then []
    else ((ds.data.lookup m).getD []).map fun ip =>
      { market := m
        commodity := ip.1
        latest_price :=
          match ip.2 with
          | [] => none
          | p :: ps => some ((p :: ps).getLast (List.cons_ne_nil p ps))
        change_percent :=
          match ip.2 with
          | [] => 0
          | p :: ps =>
            if p ≠ 0 then ((p :: ps).getLast (List.cons_ne_nil p ps) - p) / p * 100 else 0
        market_meta := (ds.markets_meta.lookup m).getD []
        item_meta := (ds.items_meta.lookup ip.1).getD [] }

/-- `featured.sort(key=lambda x: abs(x["change_percent"]), reverse=True)` is a
stable descending sort: `a` may stay before `b` exactly when
`abs(b.change) ≤ abs(a.change)`. -/
def featuredLE (a b : FeaturedItem) : Bool :=
  decide (|b.change_percent| ≤ |a.change_percent|)

/-- `GET /featured` handler: stable-sort the candidates and slice. -/
def get_featured (ds : Dataset) (limit : Int) (city : Option String) :
    List FeaturedItem × MetaObj :=
  (pySliceTo ((featuredCandidates ds city).mergeSort featuredLE) limit, ds.meta)

/-! ## Prediction endpoint (`predict_price`, main.py lines 197-230) -/

/-- Lines 200-203: `prices = request.prices; if not prices: prices =
get_prices_from_dataset(...)`.  This lookup happens before the `try` block. -/
def resolvePrices (ds : Dataset) (request : PricePredictionRequest) :
    Except PyErr (List ℚ) :=
  match request.prices with
  | some (p :: ps) => Except.ok (p :: ps)
  | _ => get_prices_from_dataset ds request.market request.commodity

/-- The fixed response returned when no Gemini credentials are configured. -/
def notConfiguredResponse : PricePredictionResponse :=
  { prediction := "Gemini AI not configured - using fallback prediction"
    confidence := "60%"
    tip := "Configure GEMINI_API_KEY for real predictions"
    raw_response := "Fallback response" }

/-- The fixed response built in the `except` branch of `predict_price`. -/
def errorResponse (msg : String) : PricePredictionResponse :=
  { prediction := "Error occurred while generating prediction"
    confidence := "50%"
    tip := "Try again later or check market manually"
    raw_response := "Error: " ++ msg }

/-- `POST /predict`.  The second component is the list of prompts actually
sent to the external model capability. -/
def predict_price (ds : Dataset) (model : Option GeminiModel)
    (request : PricePredictionRequest) :
    Except PyErr PricePredictionResponse × List String :=
  let dates := pyOrList request.dates (get_dates ds)
  match resolvePrices ds request with
  | Except.error e => (Except.error e, [])
  | Except.ok prices =>
    match model with
    | none => (Except.ok notConfiguredResponse, [])
    | some gen =>
      match build_gemini_prompt ds prices request.market request.commodity dates with
      | Except.error e => (Except.ok (errorResponse e.message), [])
      | Except.ok prompt =>
        match gen prompt with
        | Except.error e => (Except.ok (errorResponse e), [prompt])
        | Except.ok response_text =>
          let parsed := parse_gemini_response response_text
          (Except.ok
            { prediction := parsed.prediction
              confidence := parsed.confidence
              tip := parsed.tip
              raw_response := parsed.raw_response }, [prompt])

/-! ## Spec-side reference definitions

These follow the wording of the specification (not the code); they exist to
compare the code's parser against the spec's description of it. -/

inductive ReplyField where
  | prediction
  | confidence
  | tip
deriving DecidableEq, Repr

/-- Modelled from the spec: "for each resulting segment, trim whitespace and
match a case-sensitive prefix"; the extracted value keeps the code's
`str.replace` semantics (every occurrence of the label removed, then
trimmed); "segments matching no known prefix are ignored". -/
def classifySegment (segment : String) : Option (ReplyField × String) :=
  let seg := pyStrip segment
  if pyStartswith seg "Prediction:" then
    some (ReplyField.prediction, pyStrip (pyReplace seg "Prediction:" ""))
  else if pyStartswith seg "Confidence:" then
    some (ReplyField.confidence, pyStrip (pyReplace seg "Confidence:" ""))
  else if pyStartswith seg "Tip:" then
    some (ReplyField.tip, pyStrip (pyReplace seg "Tip:" ""))
  else none

/-- The value of a field: the last segment assigned to it (scanning from the
right, the first assignment found wins). -/
def lastFieldValue (k : ReplyField) (parts : List String) : Option String :=
  parts.foldr
    (fun part acc =>
      match acc with
      | some v => some v
      | none =>
        match classifySegment part with
        | some kv => if kv.1 = k then some kv.2 else none
        | none => none)
    none

/-- Reference parser assembled from the spec's description: classify each
segment independently, keep the last assignment per field, and fall back to
the fixed defaults for a field left without a (non-empty) value. -/
def parseResponseRef (txt : String) : ParsedResponse :=
  let parts := pySplit txt " / "
  { prediction := pyOrStr ((lastFieldValue ReplyField.prediction parts).getD "")
      "Price movement uncertain"
    confidence := pyOrStr ((lastFieldValue ReplyField.confidence parts).getD "") "60%"
    tip := pyOrStr ((lastFieldValue ReplyField.tip parts).getD "")
      "Monitor market conditions"
    raw_response := txt }

/-- Modelled from the spec: "the remainder of the segment after the prefix
(trimmed) becomes that field's value". -/
def remainderAfter (pre segment : String) : String :=
  pyStrip (String.mk (segment.data.drop pre.data.length))

/-- `sub` occurs somewhere inside `s`. -/
def containsStr (s sub : String) : Prop :=
  ∃ a b, s = a ++ sub ++ b

/-! ## Concrete fixtures used by witnesses and counterexamples -/

/-- A small dataset with two markets and three (market, commodity) pairs. -/
def dsA : Dataset :=
  { markets := ["Addis Mercato", "Adama Market"]
    markets_meta :=
      [("Addis Mercato", [("city", "Addis Ababa")]), ("Adama Market", [("city", "Adama")])]
    data :=
      [("Addis Mercato", [("teff", [50, 55]), ("maize", [20, 18])]),
       ("Adama Market", [("wheat", [30, 30])])]
    items_meta := [("teff", [("label", "Teff")])]
    dates := ["2024-01-01", "2024-01-02"]
    meta := [("currency", "ETB")] }

/-- A model capability that always answers with a well-formed reply. -/
def genOk : GeminiModel :=
  fun _ => Except.ok "Prediction: Up. / Confidence: 80% / Tip: Buy now."

/-- A model capability that always raises. -/
def genFail : GeminiModel :=
  fun _ => Except.error "boom"

/-! ## Helper lemmas -/

/-- The loop body of the parser, re-expressed through segment classification. -/
theorem parseFields_eq_classify (acc : String × String × String) (part : String) :
    parseFields acc part =
      match classifySegment part with
      | none => acc
      | some (ReplyField.prediction, v) => (v, acc.2.1, acc.2.2)
      | some (ReplyField.confidence, v) => (acc.1, v, acc.2.2)
      | some (ReplyField.tip, v) => (acc.1, acc.2.1, v) := by
  unfold parseFields classifySegment
  by_cases h1 : pyStartswith (pyStrip part) "Prediction:" <;>
    by_cases h2 : pyStartswith (pyStrip part) "Confidence:" <;>
      by_cases h3 : pyStartswith (pyStrip part) "Tip:" <;>
        simp [h1, h2, h3]

theorem lastFieldValue_cons_none {p : String} (h : classifySegment p = none)
    (k : ReplyField) (ps : List String) :
    lastFieldValue k (p :: ps) = lastFieldValue k ps := by
  simp only [lastFieldValue, List.foldr_cons, h]
  cases ps.foldr _ none <;> rfl

theorem lastFieldValue_cons_some {p : String} {k' : ReplyField} {v : String}
    (h : classifySegment p = some (k', v)) (k : ReplyField) (ps : List String) :
    lastFieldValue k (p :: ps) =
      match lastFieldValue k ps with
      | some w => some w
      | none => if k' = k then some v else none := by
  simp only [lastFieldValue, List.foldr_cons, h]

/-- The single left fold of `parse_gemini_response` computes, per component,
the last assignment made to each field. -/
theorem foldl_parseFields_eq (parts : List String) :
    ∀ a b c : String,
      parts.foldl parseFields (a, b, c) =
        ((lastFieldValue ReplyField.prediction parts).getD a,
         (lastFieldValue ReplyField.confidence parts).getD b,
         (lastFieldValue ReplyField.tip parts).getD c) := by
  induction parts with
  | nil => intro a b c; rfl
  | cons p ps ih =>
    intro a b c
    rcases hc : classifySegment p with _ | ⟨k, v⟩
    · simp only [List.foldl_cons, parseFields_eq_classify, hc,
        lastFieldValue_cons_none hc]
      exact ih a b c
    · rcases k <;>
        simp only [List.foldl_cons, parseFields_eq_classify, hc,
          lastFieldValue_cons_some hc, ih] <;>
        cases lastFieldValue ReplyField.prediction ps <;>
          cases lastFieldValue ReplyField.confidence ps <;>
            cases lastFieldValue ReplyField.tip ps <;>
              simp

/-! ## Claim theorems -/

/-- C2 (counterexample): the parser does NOT take "the remainder of the
segment after the prefix": `str.replace` removes every occurrence of the
label, so a segment in which the label recurs is mangled.  On
`"Prediction: A Prediction: B"` the code yields `"A  B"`, not the
remainder-after-prefix `"A Prediction: B"`. -/
theorem parse_remainder_counterexample :
    (parse_gemini_response "Prediction: A Prediction: B").prediction ≠
      remainderAfter "Prediction:" (pyStrip "Prediction: A Prediction: B") := by
  decide

/-- C2 (amended): the parser splits on `" / "`, trims each segment, matches
the case-sensitive labels, takes as each field's value the segment with
every occurrence of the label removed and then trimmed (the last matching
segment wins), ignores unmatched segments, and substitutes the fixed
fallback for a field left empty; the well-formed example parses exactly as
stated, with `raw_response` equal to the input. -/
theorem parse_gemini_response_spec :
    (∀ txt, parse_gemini_response txt = parseResponseRef txt) ∧
      parse_gemini_response "Prediction: Up. / Confidence: 80% / Tip: Buy now." =
        { prediction := "Up."
          confidence := "80%"
          tip := "Buy now."
          raw_response := "Prediction: Up. / Confidence: 80% / Tip: Buy now." } := by
  constructor
  · intro txt
    have h := foldl_parseFields_eq (pySplit txt " / ") "" "" ""
    simp only [parse_gemini_response, parseResponseRef, h]
  · decide

/-- C6: the parser is total; for every input it returns a complete
four-field record whose `raw_response` is the original text (the `except`
branch of the Python function is unreachable for string inputs). -/
theorem parse_gemini_response_total (txt : String) :
    (parse_gemini_response txt).raw_response = txt := by
  rfl

/-- C10: a `prices` field supplied as the empty sequence is treated exactly
like an absent one: both fall through to the dataset lookup, so the whole
call is identical. -/
theorem predict_empty_prices_eq_absent (ds : Dataset) (model : Option GeminiModel)
    (market commodity : String) (dates : Option (List String)) :
    predict_price ds model
        { prices := some [], market := market, commodity := commodity, dates := dates } =
      predict_price ds model
        { prices := none, market := market, commodity := commodity, dates := dates } := by
  rfl

/-- C1 (counterexample): a `POST /predict` body with `prices` absent and an
unknown market makes the handler raise `HTTPException(404)` — an error
status, not the outcome-3 fallback — because the dataset lookup on line 203
happens before the `try` block. -/
theorem predict_unknown_market_counterexample :
    predict_price dsA (some genOk)
        { prices := none, market := "Nowhere", commodity := "teff", dates := none } =
      (Except.error (PyErr.http 404 "Market not found"), []) := by
  rfl

/-- C1 (amended): when the request omits `prices` (or supplies `[]`) and the
dataset lookup fails, `predict` propagates the 404 `HTTPException` as an
error status — the broad catch does not cover the lookup — and no model
call is made. -/
theorem predict_lookup_fault_is_http_error (ds : Dataset) (model : Option GeminiModel)
    (request : PricePredictionRequest) (e : PyErr)
    (hp : request.prices = none ∨ request.prices = some [])
    (he : get_prices_from_dataset ds request.market request.commodity = Except.error e) :
    predict_price ds model request = (Except.error e, []) := by
  have hres : resolvePrices ds request = Except.error e := by
    rcases hp with hp | hp <;> rw [resolvePrices, hp] <;> exact he
  simp only [predict_price, hres]

theorem predict_lookup_fault_is_http_error_witness :
    ((({ prices := none, market := "Nowhere", commodity := "teff", dates := none }
          : PricePredictionRequest).prices = none ∨
        (({ prices := none, market := "Nowhere", commodity := "teff", dates := none }
          : PricePredictionRequest)).prices = some []) ∧
      get_prices_from_dataset dsA "Nowhere" "teff" =
        Except.error (PyErr.http 404 "Market not found")) ∧
    predict_price dsA none
        { prices := none, market := "Nowhere", commodity := "teff", dates := none } =
      (Except.error (PyErr.http 404 "Market not found"), []) :=
  ⟨⟨Or.inl rfl, rfl⟩,
    predict_lookup_fault_is_http_error dsA none
      { prices := none, market := "Nowhere", commodity := "teff", dates := none }
      (PyErr.http 404 "Market not found") (Or.inl rfl) rfl⟩

/-- C7: with no model capability configured, `predict` answers the fixed
"not configured" response for every request whose price resolution
succeeds, and sends no prompt to any external model. -/
theorem predict_no_model_fixed_response (ds : Dataset)
    (request : PricePredictionRequest) (prices : List ℚ)
    (h : resolvePrices ds request = Except.ok prices) :
    predict_price ds none request = (Except.ok notConfiguredResponse, []) := by
  simp only [predict_price, h]

theorem predict_no_model_fixed_response_witness :
    resolvePrices dsA
        { prices := none, market := "Addis Mercato", commodity := "teff", dates := none } =
      Except.ok [50, 55] ∧
    predict_price dsA none
        { prices := none, market := "Addis Mercato", commodity := "teff", dates := none } =
      (Except.ok notConfiguredResponse, []) :=
  ⟨rfl,
    predict_no_model_fixed_response dsA
      { prices := none, market := "Addis Mercato", commodity := "teff", dates := none }
      [50, 55] rfl⟩

/-- C8: whenever the model call raises — whatever the fault description —
`predict` swallows the fault and returns the fixed "error occurred" result,
whose `raw_response` is `"Error: "` followed by the description; no fault
propagates to the caller. -/
theorem predict_model_fault_fallback (ds : Dataset) (gen : GeminiModel)
    (request : PricePredictionRequest) (prices : List ℚ) (e : String)
    (hres : resolvePrices ds request = Except.ok prices) (hne : prices ≠ [])
    (hgen : ∀ prompt, gen prompt = Except.error e) :
    (predict_price ds (some gen) request).1 = Except.ok (errorResponse e) ∧
      (errorResponse e).raw_response = "Error: " ++ e := by
  obtain ⟨p, ps, rfl⟩ : ∃ p ps, prices = p :: ps := by
    cases prices with
    | nil => exact absurd rfl hne
    | cons p ps => exact ⟨p, ps, rfl⟩
  refine ⟨?_, rfl⟩
  simp only [predict_price, hres, build_gemini_prompt, hgen]

theorem predict_model_fault_fallback_witness :
    (resolvePrices dsA
        { prices := none, market := "Addis Mercato", commodity := "teff", dates := none } =
      Except.ok [50, 55] ∧ ([50, 55] : List ℚ) ≠ []) ∧
    (predict_price dsA (some genFail)
        { prices := none, market := "Addis Mercato", commodity := "teff", dates := none }).1 =
      Except.ok (errorResponse "boom") ∧
    (errorResponse "boom").raw_response = "Error: " ++ "boom" :=
  ⟨⟨rfl, by decide⟩,
    predict_model_fault_fallback dsA genFail
      { prices := none, market := "Addis Mercato", commodity := "teff", dates := none }
      [50, 55] "boom" rfl (by decide) (fun _ => rfl)⟩

/-- C3: building a prompt from an empty price list fails (the `IndexError`
of `prices[-1]`), and for every non-empty price list it succeeds and the
prompt contains `↗` when the last price exceeds the first, `↘` when it is
below it, and `→` when they are equal. -/
theorem build_prompt_empty_fails_and_trend (ds : Dataset) (market commodity : String)
    (dates : List String) :
    build_gemini_prompt ds [] market commodity dates = Except.error PyErr.indexError ∧
      ∀ (prices : List ℚ) (hne : prices ≠ []),
        ∃ s, build_gemini_prompt ds prices market commodity dates = Except.ok s ∧
          (prices.getLast hne > prices.head hne → containsStr s "↗") ∧
          (prices.getLast hne < prices.head hne → containsStr s "↘") ∧
          (prices.getLast hne = prices.head hne → containsStr s "→") := by
  refine ⟨rfl, ?_⟩
  intro prices hne
  cases prices with
  | nil => exact absurd rfl hne
  | cons p ps =>
    refine ⟨_, rfl, ?_, ?_, ?_⟩
    · intro hgt
      have hg : trendGlyph p ((p :: ps).getLast (List.cons_ne_nil p ps)) = "↗" := by
        have hp : (p :: ps).getLast (List.cons_ne_nil p ps) > p := by simpa using hgt
        simp [trendGlyph, hp]
      exact ⟨_, _, by rw [hg]⟩
    · intro hlt
      have hg : trendGlyph p ((p :: ps).getLast (List.cons_ne_nil p ps)) = "↘" := by
        have hp : (p :: ps).getLast (List.cons_ne_nil p ps) < p := by simpa using hlt
        simp [trendGlyph, not_lt_of_lt hp, hp]
      exact ⟨_, _, by rw [hg]⟩
    · intro heq
      have hg : trendGlyph p ((p :: ps).getLast (List.cons_ne_nil p ps)) = "→" := by
        have hp : (p :: ps).getLast (List.cons_ne_nil p ps) = p := by simpa using heq
        simp [trendGlyph, hp]
      exact ⟨_, _, by rw [hg]⟩

theorem build_prompt_empty_fails_and_trend_witness :
    (([1, 2] : List ℚ) ≠ []) ∧
      ∃ s, build_gemini_prompt dsA [1, 2] "Addis Mercato" "teff" ["d1", "d2"] =
          Except.ok s ∧ containsStr s "↗" := by
  refine ⟨by decide, ?_⟩
  obtain ⟨-, h⟩ := build_prompt_empty_fails_and_trend dsA "Addis Mercato" "teff" ["d1", "d2"]
  obtain ⟨s, hs, hup, -, -⟩ := h [1, 2] (by decide)
  exact ⟨s, hs, hup (by decide)⟩

/-- C4: for a (market, commodity) pair the dataset lookup resolves, with a
non-empty stored series, `GET /prices` answers `latest_price` equal to the
last stored price and `change_percent` equal to
`(last - first) / first * 100`, with `0` when the first price is `0`. -/
theorem get_prices_latest_and_change (ds : Dataset) (market commodity : String)
    (prices : List ℚ)
    (h : get_prices_from_dataset ds market commodity = Except.ok prices)
    (hne : prices ≠ []) :
    ∃ r, get_prices ds market commodity = Except.ok r ∧
      r.latest_price = prices.getLast hne ∧
      r.change_percent =
        if prices.head hne = 0 then 0
        else (prices.getLast hne - prices.head hne) / prices.head hne * 100 := by
  cases prices with
  | nil => exact absurd rfl hne
  | cons p ps =>
    have hg : get_prices ds market commodity = Except.ok
        { market := market
          commodity := commodity
          prices := p :: ps
          dates := get_dates ds
          latest_price := (p :: ps).getLast (List.cons_ne_nil p ps)
          change_percent :=
            if p ≠ 0 then ((p :: ps).getLast (List.cons_ne_nil p ps) - p) / p * 100 else 0
          meta := ds.meta
          market_meta := (ds.markets_meta.lookup market).getD []
          item_meta := (ds.items_meta.lookup commodity).getD [] } := by
      simp [get_prices, h]
    refine ⟨_, hg, rfl, ?_⟩
    by_cases hp : p = 0
    · simp [hp]
    · simp [hp]

theorem get_prices_latest_and_change_witness :
    (get_prices_from_dataset dsA "Addis Mercato" "teff" = Except.ok [50, 55] ∧
      ([50, 55] : List ℚ) ≠ []) ∧
      ∃ r, get_prices dsA "Addis Mercato" "teff" = Except.ok r ∧
        r.latest_price = ([50, 55] : List ℚ).getLast (by decide) ∧
        r.change_percent =
          if ([50, 55] : List ℚ).head (by decide) = 0 then 0
          else (([50, 55] : List ℚ).getLast (by decide) - ([50, 55] : List ℚ).head (by decide)) /
              ([50, 55] : List ℚ).head (by decide) * 100 :=
  ⟨⟨rfl, by decide⟩,
    get_prices_latest_and_change dsA "Addis Mercato" "teff" [50, 55] rfl (by decide)⟩

/-- C9: `GET /commodities` on an unknown market answers 404; the price
lookup on a known market with an unknown commodity answers 404; and a
successful lookup returns exactly the stored series, reading the dataset
without modifying it. -/
theorem lookup_failures_are_404 :
    (∀ (ds : Dataset) (market : String), ds.data.lookup market = none →
      get_commodities ds market = Except.error (PyErr.http 404 "Market not found")) ∧
      (∀ (ds : Dataset) (market commodity : String) (md : List (String × List ℚ)),
        ds.data.lookup market = some md → md.lookup commodity = none →
        ∃ d, get_prices_from_dataset ds market commodity =
          Except.error (PyErr.http 404 d)) ∧
      (∀ (ds : Dataset) (market commodity : String) (prices : List ℚ),
        get_prices_from_dataset ds market commodity = Except.ok prices →
        ∃ md, ds.data.lookup market = some md ∧ md.lookup commodity = some prices) := by
  refine ⟨?_, ?_, ?_⟩
  · intro ds market h
    simp [get_commodities, h]
  · intro ds market commodity md h hc
    cases md with
    | nil => exact ⟨"Market not found", by simp [get_prices_from_dataset, h]⟩
    | cons x xs => exact ⟨"Commodity not found", by simp [get_prices_from_dataset, h, hc]⟩
  · intro ds market commodity prices h
    rcases hm : ds.data.lookup market with _ | md
    · have he : get_prices_from_dataset ds market commodity =
          Except.error (PyErr.http 404 "Market not found") := by
        simp [get_prices_from_dataset, hm]
      rw [he] at h
      exact Except.noConfusion h
    · cases md with
      | nil =>
        have he : get_prices_from_dataset ds market commodity =
            Except.error (PyErr.http 404 "Market not found") := by
          simp [get_prices_from_dataset, hm]
        rw [he] at h
        exact Except.noConfusion h
      | cons x xs =>
        rcases hc : (x :: xs).lookup commodity with _ | v
        · have he : get_prices_from_dataset ds market commodity =
              Except.error (PyErr.http 404 "Commodity not found") := by
            simp [get_prices_from_dataset, hm, hc]
          rw [he] at h
          exact Except.noConfusion h
        · have hv : get_prices_from_dataset ds market commodity = Except.ok v := by
            simp [get_prices_from_dataset, hm, hc]
          rw [hv] at h
          simp only [Except.ok.injEq] at h
          exact ⟨x :: xs, rfl, by rw [hc, h]⟩

theorem lookup_failures_are_404_witness :
    (dsA.data.lookup "Nowhere" = none ∧
      get_commodities dsA "Nowhere" = Except.error (PyErr.http 404 "Market not found")) ∧
      (dsA.data.lookup "Addis Mercato" = some [("teff", [50, 55]), ("maize", [20, 18])] ∧
        ([("teff", [50, 55]), ("maize", [20, 18])] :
            List (String × List ℚ)).lookup "barley" = none ∧
        ∃ d, get_prices_from_dataset dsA "Addis Mercato" "barley" =
          Except.error (PyErr.http 404 d)) :=
  ⟨⟨rfl, lookup_failures_are_404.1 dsA "Nowhere" rfl⟩,
    ⟨rfl, rfl, lookup_failures_are_404.2.1 dsA "Addis Mercato" "barley"
      [("teff", [50, 55]), ("maize", [20, 18])] rfl rfl⟩⟩

/-- The sort relation of `/featured` is transitive. -/
theorem featuredLE_trans : ∀ a b c : FeaturedItem,
    featuredLE a b → featuredLE b c → featuredLE a c := by
  intro a b c hab hbc
  simp only [featuredLE, decide_eq_true_eq] at *
  exact le_trans hbc hab

/-- The sort relation of `/featured` is total. -/
theorem featuredLE_total : ∀ a b : FeaturedItem, featuredLE a b || featuredLE b a := by
  intro a b
  simp only [featuredLE, Bool.or_eq_true, decide_eq_true_eq]
  exact le_total _ _

/-- C5: `/featured` returns a slice of a permutation of the candidate list
(every market and commodity pair in iteration order, city filter and empty
series handled inside `featuredCandidates`), sorted by descending absolute
change percent; the sort is stable (candidates tied on the key keep their
relative enumeration order); with a non-negative `limit` exactly
`min limit candidates` entries are returned, and with `limit = 2` over at
least three candidates, exactly two. -/
theorem get_featured_sorted_stable_limited (ds : Dataset) (limit : Int)
    (city : Option String) :
    (get_featured ds limit city).1 =
        pySliceTo ((featuredCandidates ds city).mergeSort featuredLE) limit ∧
      ((featuredCandidates ds city).mergeSort featuredLE).Perm
        (featuredCandidates ds city) ∧
      ((featuredCandidates ds city).mergeSort featuredLE).Pairwise
        (fun a b => |b.change_percent| ≤ |a.change_percent|) ∧
      (∀ a b : FeaturedItem, [a, b].Sublist (featuredCandidates ds city) →
        |a.change_percent| = |b.change_percent| →
        [a, b].Sublist ((featuredCandidates ds city).mergeSort featuredLE)) ∧
      (∀ x ∈ (get_featured ds limit city).1, x ∈ featuredCandidates ds city) ∧
      (0 ≤ limit →
        ((get_featured ds limit city).1).length =
          min limit.toNat (featuredCandidates ds city).length) ∧
      (limit = 2 → 3 ≤ (featuredCandidates ds city).length →
        ((get_featured ds limit city).1).length = 2) := by
  have hsub : ((get_featured ds limit city).1).Sublist
      ((featuredCandidates ds city).mergeSort featuredLE) := by
    unfold get_featured pySliceTo
    split <;> exact List.take_sublist _ _
  refine ⟨rfl, List.mergeSort_perm _ _, ?_, ?_, ?_, ?_, ?_⟩
  · exact (List.sorted_mergeSort featuredLE_trans featuredLE_total
      (featuredCandidates ds city)).imp fun h => by
        simpa only [featuredLE, decide_eq_true_eq] using h
  · intro a b hl heq
    refine List.pair_sublist_mergeSort featuredLE_trans featuredLE_total ?_ hl
    simp only [featuredLE, heq, decide_eq_true_eq]
    exact le_refl _
  · intro x hx
    exact List.mem_mergeSort.mp (hsub.subset hx)
  · intro hlim
    unfold get_featured pySliceTo
    rw [if_pos hlim]
    simp
  · intro h2 h3
    subst h2
    unfold get_featured pySliceTo
    rw [if_pos (by decide)]
    simp only [List.length_take, List.length_mergeSort]
    omega

theorem get_featured_sorted_stable_limited_witness :
    ((2 : Int) = 2 ∧ 3 ≤ (featuredCandidates dsA none).length) ∧
      ((get_featured dsA 2 none).1).length = 2 :=
  ⟨⟨rfl, by decide⟩,
    (get_featured_sorted_stable_limited dsA 2 none).2.2.2.2.2.2 rfl (by decide)⟩
